import Mathlib

/-!
Verification of the `portfolio_60` Tauri supervisor (`src/src-tauri/src/lib.rs`).

The supervisor is modelled as pure functions over an explicit `World`
describing the environment variables, the filesystem, and the outcomes of
the OS-level operations (initial TCP probe, spawn, readiness probe).  The
observable side effects of a run are collected in an effect trace.
-/

namespace Portfolio60

/-- Observable side effects the supervisor performs. -/
inductive Effect where
  | createDirAll (path : String)
  | copyFile (src dst : String)
  | setChildEnv (key val : String)
  | spawnAttempt (exe cwd : String) (args : List String)
  | warn (msg : String)
  | killChild
  | waitChild
deriving DecidableEq, Repr

/-- Outcome of `run`: either a normal startup with the supervised-process
state (`none` = external server, `some ()` = spawned child), or a panic. -/
inductive RunResult where
  | ok (child : Option Unit)
  | panicked (msg : String)
deriving DecidableEq, Repr

/-- Input world: environment variables, filesystem existence, and the
outcomes of OS operations during one startup. -/
structure World where
  env : String → Option String
  fs : String → Bool
  /-- whether the initial TCP connection to 127.0.0.1:1420 succeeds -/
  port1420Open : Bool
  /-- Spawn outcome: `none` = success; `some e` = failure with OS error `e` -/
  spawnError : Option String
  /-- outcome of the n-th readiness-probe connection attempt -/
  connectOk : Nat → Bool

/-- Model of `ServerProcess(Option<Child>)`: holds the spawned child, if any. -/
abbrev ServerProcess := Option Unit

/-- Body of `impl Drop for ServerProcess`: if a child is held, kill it and
wait on it; otherwise do nothing. -/
def serverProcess_drop (p : ServerProcess) : List Effect :=
  match p with
  | some _ => [Effect.killChild, Effect.waitChild]
  | none => []

/-- The candidate list built by `find_bun`: the `BUN_INSTALL`-derived path
(empty string when the variable is unset, mirroring `unwrap_or_default`),
then `$HOME/.bun/bin/bun`, then the two system-wide locations. -/
def find_bun_candidates (env : String → Option String) : List String :=
  let home := (env "HOME").getD "/home/rcollins"
  [ (match env "BUN_INSTALL" with
     | some dir => dir ++ "/bin/bun"
     | none => ""),
    home ++ "/.bun/bin/bun",
    "/usr/local/bin/bun",
    "/usr/bin/bun" ]

/-- Model of `find_bun`: return the first non-empty candidate that exists on the
filesystem, or the bare name `"bun"` when none does. -/
def find_bun (env : String → Option String) (fs : String → Bool) : String :=
  (((find_bun_candidates env).find? (fun c => (c != "") && fs c)).getD "bun")

/-- The polling loop of `wait_for_server`: while the elapsed time is below
the timeout, attempt a connection (success returns `true`); on failure
sleep 200 ms and retry.  Elapsed time is modelled as the accumulated
sleeps in milliseconds. -/
def wait_loop (connectOk : Nat → Bool) (timeoutMs attempt elapsedMs : Nat) : Bool :=
  if h : elapsedMs < timeoutMs then
    if connectOk attempt then true
    else wait_loop connectOk timeoutMs (attempt + 1) (elapsedMs + 200)
  else false
termination_by timeoutMs - elapsedMs
decreasing_by simp_wf; omega

/-- Model of `wait_for_server(port, timeout_secs)`: poll until a connection succeeds
or `timeout_secs` seconds have elapsed. -/
def wait_for_server (connectOk : Nat → Bool) (_port : Nat) (timeoutSecs : Nat) : Bool :=
  wait_loop connectOk (timeoutSecs * 1000) 0 0

/-- The first-run migration of the Flatpak branch: copy the bundled
`config.json` into the data directory when the destination does not yet
exist and the bundled source does. -/
def flatpakCopyEffects (fs : String → Bool) (data : String) : List Effect :=
  let dataConfig := data ++ "/config.json"
  let bundledConfig := "/app/share/portfolio_60/src/shared/config.json"
  if !(fs dataConfig) then
    if fs bundledConfig then [Effect.copyFile bundledConfig dataConfig] else []
  else []

/-- The `(project_dir, bun_path, data_dir)` selection of the launch branch,
together with the filesystem side effects it performs. -/
structure LaunchConfig where
  setupEffects : List Effect
  project_dir : String
  bun_path : String
  data_dir : Option String
deriving Repr

/-- The launch branch of `run`: select paths and perform the filesystem
side effects, for the Flatpak and the normal case. -/
def resolveLaunch (env : String → Option String) (fs : String → Bool) : LaunchConfig :=
  if (env "FLATPAK_ID").isSome then
    let home := (env "HOME").getD "/home/rcollins"
    let data := home ++ "/.config/portfolio_60"
    { setupEffects := Effect.createDirAll data :: flatpakCopyEffects fs data,
      project_dir := "/app/share/portfolio_60",
      bun_path := "/app/bin/bun",
      data_dir := some data }
  else
    let home := (env "HOME").getD "/home/rcollins"
    let project := (env "PORTFOLIO60_DIR").getD (home ++ "/code/portfolio_60")
    let bun := find_bun env fs
    let data := home ++ "/.config/portfolio_60"
    { setupEffects := [Effect.createDirAll data],
      project_dir := project,
      bun_path := bun,
      data_dir := some data }

/-- The panic message format of the spawn-failure path. -/
def spawnPanicMsg (bun_path project_dir err : String) : String :=
  "Failed to start Bun server.\n  Bun path: " ++ bun_path ++
    "\n  Project dir: " ++ project_dir ++ "\n  Error: " ++ err

/-- Model of `run`: probe port 1420; when an external server answers, own no child;
otherwise resolve paths, perform the migration side effects, set the
data-directory variable on the child, spawn the child (panicking on OS failure),
and run the readiness probe, warning once on timeout. -/
def run (w : World) : List Effect × RunResult :=
  if w.port1420Open then
    ([], RunResult.ok none)
  else
    let cfg := resolveLaunch w.env w.fs
    let envEffects :=
      match cfg.data_dir with
      | some data => [Effect.setChildEnv "PORTFOLIO60_DATA_DIR" data]
      | none => []
    let spawnEffects :=
      [Effect.spawnAttempt cfg.bun_path cfg.project_dir ["run", "src/server/index.js"]]
    match w.spawnError with
    | some e =>
      (cfg.setupEffects ++ envEffects ++ spawnEffects,
       RunResult.panicked (spawnPanicMsg cfg.bun_path cfg.project_dir e))
    | none =>
      let warnEffects :=
        if wait_for_server w.connectOk 1420 15 then []
        else [Effect.warn "Warning: Bun server did not start within 15 seconds"]
      (cfg.setupEffects ++ envEffects ++ spawnEffects ++ warnEffects,
       RunResult.ok (some ()))

/-- Effect of an `Effect` on file existence: a successful copy makes the
destination exist; nothing else changes which files exist. -/
def applyEffect (fs : String → Bool) : Effect → (String → Bool)
  | Effect.copyFile _ dst => fun p => (p == dst) || fs p
  | _ => fs

/-- Apply a list of effects to a filesystem, in order. -/
def applyEffects (fs : String → Bool) (es : List Effect) : String → Bool :=
  es.foldl applyEffect fs

/-- Recognizer for warning effects. -/
def Effect.isWarn : Effect → Bool
  | Effect.warn _ => true
  | _ => false

/-- Recognizer for spawn attempts. -/
def Effect.isSpawnAttempt : Effect → Bool
  | Effect.spawnAttempt _ _ _ => true
  | _ => false

/-! ### Helper lemmas -/

theorem append_ne_empty_right (s t : String) (ht : t.length ≠ 0) : s ++ t ≠ "" := by
  intro h
  have h2 := congrArg String.length h
  simp [String.length_append] at h2
  exact ht h2.2

theorem wait_loop_true_iff_aux (c : Nat → Bool) (t : Nat) :
    ∀ m a e, t - e ≤ m →
      (wait_loop c t a e = true ↔ ∃ k, e + 200 * k < t ∧ c (a + k) = true) := by
  intro m
  induction m with
  | zero =>
    intro a e h
    have ht : ¬ e < t := by omega
    have hstep : wait_loop c t a e = false := by rw [wait_loop]; simp [ht]
    rw [hstep]
    apply iff_of_false (by simp)
    rintro ⟨k, hk, _⟩
    omega
  | succ m ih =>
    intro a e h
    by_cases he : e < t
    · by_cases hc : c a = true
      · have hstep : wait_loop c t a e = true := by rw [wait_loop]; simp [he, hc]
        rw [hstep]
        exact iff_of_true rfl ⟨0, by omega, by simpa using hc⟩
      · have hstep : wait_loop c t a e = wait_loop c t (a + 1) (e + 200) := by
          rw [wait_loop]; simp [he, hc]
        rw [hstep, ih (a + 1) (e + 200) (by omega)]
        constructor
        · rintro ⟨k, hk1, hk2⟩
          refine ⟨k + 1, by omega, ?_⟩
          have hx : a + (k + 1) = a + 1 + k := by omega
          rw [hx]; exact hk2
        · rintro ⟨k, hk1, hk2⟩
          match k with
          | 0 => exact absurd (by simpa using hk2) hc
          | k' + 1 =>
            refine ⟨k', by omega, ?_⟩
            have hx : a + 1 + k' = a + (k' + 1) := by omega
            rw [hx]; exact hk2
    · have hstep : wait_loop c t a e = false := by rw [wait_loop]; simp [he]
      rw [hstep]
      apply iff_of_false (by simp)
      rintro ⟨k, hk, _⟩
      omega

theorem wait_for_server_true_iff (c : Nat → Bool) (port t : Nat) :
    wait_for_server c port t = true ↔ ∃ n, 200 * n < t * 1000 ∧ c n = true := by
  have h := wait_loop_true_iff_aux c (t * 1000) (t * 1000) 0 0 (by omega)
  simpa [wait_for_server] using h

theorem wait_for_server_false_iff (c : Nat → Bool) (port t : Nat) :
    wait_for_server c port t = false ↔ ∀ n, 200 * n < t * 1000 → c n = false := by
  rw [← Bool.not_eq_true, wait_for_server_true_iff]
  push_neg
  constructor
  · intro h n hn
    have := h n hn
    simpa using this
  · intro h n hn
    simp [h n hn]

theorem wait_for_server_const_false (port t : Nat) :
    wait_for_server (fun _ => false) port t = false := by
  rw [wait_for_server_false_iff]
  intro n _
  rfl

theorem flatpakCopyEffects_eq (fs : String → Bool) (data : String) :
    flatpakCopyEffects fs data = [] ∨
    flatpakCopyEffects fs data =
      [Effect.copyFile "/app/share/portfolio_60/src/shared/config.json"
        (data ++ "/config.json")] := by
  unfold flatpakCopyEffects
  dsimp only
  split_ifs <;> simp

theorem resolveLaunch_data_dir (env : String → Option String) (fs : String → Bool) :
    (resolveLaunch env fs).data_dir =
      some (((env "HOME").getD "/home/rcollins") ++ "/.config/portfolio_60") := by
  by_cases h : (env "FLATPAK_ID").isSome <;> simp [resolveLaunch, h]

theorem resolveLaunch_setup_mem (env : String → Option String) (fs : String → Bool) :
    Effect.createDirAll (((env "HOME").getD "/home/rcollins") ++ "/.config/portfolio_60")
      ∈ (resolveLaunch env fs).setupEffects := by
  by_cases h : (env "FLATPAK_ID").isSome <;> simp [resolveLaunch, h]

theorem resolveLaunch_setup_countP_warn (env : String → Option String) (fs : String → Bool) :
    ((resolveLaunch env fs).setupEffects.countP Effect.isWarn) = 0 := by
  by_cases h : (env "FLATPAK_ID").isSome
  · rcases flatpakCopyEffects_eq fs (((env "HOME").getD "/home/rcollins") ++
      "/.config/portfolio_60") with hc | hc <;>
      simp [resolveLaunch, h, hc, Effect.isWarn]
  · simp [resolveLaunch, h, Effect.isWarn]

theorem resolveLaunch_setup_countP_spawn (env : String → Option String) (fs : String → Bool) :
    ((resolveLaunch env fs).setupEffects.countP Effect.isSpawnAttempt) = 0 := by
  by_cases h : (env "FLATPAK_ID").isSome
  · rcases flatpakCopyEffects_eq fs (((env "HOME").getD "/home/rcollins") ++
      "/.config/portfolio_60") with hc | hc <;>
      simp [resolveLaunch, h, hc, Effect.isSpawnAttempt]
  · simp [resolveLaunch, h, Effect.isSpawnAttempt]

theorem resolveLaunch_setup_no_kill (env : String → Option String) (fs : String → Bool) :
    Effect.killChild ∉ (resolveLaunch env fs).setupEffects := by
  by_cases h : (env "FLATPAK_ID").isSome
  · rcases flatpakCopyEffects_eq fs (((env "HOME").getD "/home/rcollins") ++
      "/.config/portfolio_60") with hc | hc <;>
      simp [resolveLaunch, h, hc]
  · simp [resolveLaunch, h]

theorem run_eq_of_spawn_error (w : World) (e : String)
    (hport : w.port1420Open = false) (hspawn : w.spawnError = some e) :
    run w =
      ((resolveLaunch w.env w.fs).setupEffects ++
        ([Effect.setChildEnv "PORTFOLIO60_DATA_DIR"
            (((w.env "HOME").getD "/home/rcollins") ++ "/.config/portfolio_60")] ++
          [Effect.spawnAttempt (resolveLaunch w.env w.fs).bun_path
            (resolveLaunch w.env w.fs).project_dir ["run", "src/server/index.js"]]),
       RunResult.panicked (spawnPanicMsg (resolveLaunch w.env w.fs).bun_path
          (resolveLaunch w.env w.fs).project_dir e)) := by
  simp [run, hport, hspawn, resolveLaunch_data_dir]

theorem run_eq_of_spawn_ok (w : World)
    (hport : w.port1420Open = false) (hspawn : w.spawnError = none) :
    run w =
      ((resolveLaunch w.env w.fs).setupEffects ++
        ([Effect.setChildEnv "PORTFOLIO60_DATA_DIR"
            (((w.env "HOME").getD "/home/rcollins") ++ "/.config/portfolio_60")] ++
          ([Effect.spawnAttempt (resolveLaunch w.env w.fs).bun_path
              (resolveLaunch w.env w.fs).project_dir ["run", "src/server/index.js"]] ++
            (if wait_for_server w.connectOk 1420 15 then []
             else [Effect.warn "Warning: Bun server did not start within 15 seconds"]))),
       RunResult.ok (some ())) := by
  simp [run, hport, hspawn, resolveLaunch_data_dir]

/-- A string is an infix (as a character list) of any surrounding
concatenation. -/
theorem data_infix_append (s₁ b rest : String) :
    b.data <:+: (s₁ ++ b ++ rest).data := by
  simp [String.data_append]

/-! ### Claims -/

/-- C1: tearing down (`Drop`) a `ServerProcess` that owns a spawned child
sends the child a termination signal and then reaps it, each exactly once;
tearing down a `ServerProcess` owning no child performs no action. -/
theorem c1_drop_kills_and_reaps_exactly_once :
    serverProcess_drop (some ()) = [Effect.killChild, Effect.waitChild] ∧
    (serverProcess_drop (some ())).count Effect.killChild = 1 ∧
    (serverProcess_drop (some ())).count Effect.waitChild = 1 ∧
    serverProcess_drop none = [] := by
  decide

/-- C2: when the initial TCP connection to port 1420 succeeds, `run`
spawns nothing, performs no side effects at all, and the
supervised-process state is `none`. -/
theorem c2_external_server_no_spawn (w : World) (h : w.port1420Open = true) :
    run w = ([], RunResult.ok none) := by
  simp [run, h]

theorem c2_external_server_no_spawn_witness :
    (World.mk (fun _ => none) (fun _ => false) true none (fun _ => false)).port1420Open
        = true ∧
    run (World.mk (fun _ => none) (fun _ => false) true none (fun _ => false)) =
      ([], RunResult.ok none) :=
  ⟨rfl, c2_external_server_no_spawn _ rfl⟩

/-- C3: in the launch branch, the computed
`(executable path, working directory, data directory)` triple is the fixed
Flatpak triple when `FLATPAK_ID` is set, and the home/override-derived
triple when it is unset. -/
theorem c3_path_triple_selection (env : String → Option String) (fs : String → Bool) :
    ((resolveLaunch env fs).bun_path, (resolveLaunch env fs).project_dir,
      (resolveLaunch env fs).data_dir) =
      (if (env "FLATPAK_ID").isSome then
        ("/app/bin/bun", "/app/share/portfolio_60",
          some (((env "HOME").getD "/home/rcollins") ++ "/.config/portfolio_60"))
      else
        (find_bun env fs,
          (env "PORTFOLIO60_DIR").getD
            (((env "HOME").getD "/home/rcollins") ++ "/code/portfolio_60"),
          some (((env "HOME").getD "/home/rcollins") ++ "/.config/portfolio_60"))) := by
  by_cases h : (env "FLATPAK_ID").isSome <;> simp [resolveLaunch, h]

/-- Resolution order of `find_bun` as the spec words it: the
`BUN_INSTALL`-derived path when that variable is set, then the home and
system-wide candidates, returning the first that exists, else the bare
name `"bun"`. -/
def find_bun_spec_order (env : String → Option String) (fs : String → Bool) : String :=
  let home := (env "HOME").getD "/home/rcollins"
  let specCandidates :=
    (match env "BUN_INSTALL" with
     | some dir => [dir ++ "/bin/bun"]
     | none => []) ++
    [home ++ "/.bun/bin/bun", "/usr/local/bin/bun", "/usr/bin/bun"]
  ((specCandidates.find? fs).getD "bun")

/-- C4: `find_bun` returns the first existing candidate in the fixed order
(`BUN_INSTALL`-derived path, `$HOME/.bun/bin/bun`, `/usr/local/bin/bun`,
`/usr/bin/bun`), degrading to the bare name `"bun"`; in particular an
existing `BUN_INSTALL`-derived path beats every fallback. -/
theorem c4_find_bun_resolution_order (env : String → Option String) (fs : String → Bool) :
    find_bun env fs = find_bun_spec_order env fs ∧
    (∀ dir, env "BUN_INSTALL" = some dir → fs (dir ++ "/bin/bun") = true →
      find_bun env fs = dir ++ "/bin/bun") := by
  have h1 : ((((env "HOME").getD "/home/rcollins") ++ "/.bun/bin/bun") != "") = true := by
    simp only [bne_iff_ne, ne_eq]
    exact append_ne_empty_right _ _ (by decide)
  constructor
  · cases hB : env "BUN_INSTALL" with
    | none =>
      by_cases f1 : fs (((env "HOME").getD "/home/rcollins") ++ "/.bun/bin/bun") <;>
        by_cases f2 : fs "/usr/local/bin/bun" <;>
        by_cases f3 : fs "/usr/bin/bun" <;>
        simp [find_bun, find_bun_candidates, find_bun_spec_order, hB, List.find?,
          h1, f1, f2, f3]
    | some dir =>
      have h0 : ((dir ++ "/bin/bun") != "") = true := by
        simp only [bne_iff_ne, ne_eq]
        exact append_ne_empty_right _ _ (by decide)
      by_cases f0 : fs (dir ++ "/bin/bun") <;>
        by_cases f1 : fs (((env "HOME").getD "/home/rcollins") ++ "/.bun/bin/bun") <;>
        by_cases f2 : fs "/usr/local/bin/bun" <;>
        by_cases f3 : fs "/usr/bin/bun" <;>
        simp [find_bun, find_bun_candidates, find_bun_spec_order, hB, List.find?,
          h0, h1, f0, f1, f2, f3]
  · intro dir hB hfs
    have h0 : ((dir ++ "/bin/bun") != "") = true := by
      simp only [bne_iff_ne, ne_eq]
      exact append_ne_empty_right _ _ (by decide)
    simp [find_bun, find_bun_candidates, hB, List.find?, h0, hfs]

theorem c4_find_bun_resolution_order_witness :
    find_bun (fun v => if v == "BUN_INSTALL" then some "/opt/bun" else none)
        (fun p => p == "/opt/bun/bin/bun") = "/opt/bun/bin/bun" :=
  (c4_find_bun_resolution_order _ _).2 "/opt/bun" rfl (by decide)

/-- C5: the Flatpak first-run migration copies the bundled `config.json`
iff the destination is absent and the bundled source exists, and running
the migration again after its own effects performs no copy (idempotence). -/
theorem c5_migration_copy_iff_and_idempotent (fs : String → Bool) (data : String) :
    (flatpakCopyEffects fs data ≠ [] ↔
      (fs (data ++ "/config.json") = false ∧
        fs "/app/share/portfolio_60/src/shared/config.json" = true)) ∧
    flatpakCopyEffects (applyEffects fs (flatpakCopyEffects fs data)) data = [] := by
  by_cases h1 : fs (data ++ "/config.json") <;>
    by_cases h2 : fs "/app/share/portfolio_60/src/shared/config.json" <;>
    simp [flatpakCopyEffects, applyEffects, applyEffect, h1, h2]

/-- C6: when spawning the child fails at the OS level, `run` panics with a
diagnostic containing the resolved executable path, the resolved working
directory, and the OS error, after exactly one spawn attempt (no retry). -/
theorem c6_spawn_failure_panics (w : World) (e : String)
    (hport : w.port1420Open = false) (hspawn : w.spawnError = some e) :
    (run w).2 =
      RunResult.panicked (spawnPanicMsg (resolveLaunch w.env w.fs).bun_path
        (resolveLaunch w.env w.fs).project_dir e) ∧
    (resolveLaunch w.env w.fs).bun_path.data <:+:
      (spawnPanicMsg (resolveLaunch w.env w.fs).bun_path
        (resolveLaunch w.env w.fs).project_dir e).data ∧
    (resolveLaunch w.env w.fs).project_dir.data <:+:
      (spawnPanicMsg (resolveLaunch w.env w.fs).bun_path
        (resolveLaunch w.env w.fs).project_dir e).data ∧
    e.data <:+:
      (spawnPanicMsg (resolveLaunch w.env w.fs).bun_path
        (resolveLaunch w.env w.fs).project_dir e).data ∧
    ((run w).1.countP Effect.isSpawnAttempt) = 1 := by
  rw [run_eq_of_spawn_error w e hport hspawn]
  refine ⟨rfl, ?_, ?_, ?_, ?_⟩
  · have h := data_infix_append "Failed to start Bun server.\n  Bun path: "
      ((resolveLaunch w.env w.fs).bun_path)
      ("\n  Project dir: " ++ (resolveLaunch w.env w.fs).project_dir ++ "\n  Error: " ++ e)
    simpa [spawnPanicMsg, String.data_append, List.append_assoc] using h
  · have h := data_infix_append
      ("Failed to start Bun server.\n  Bun path: " ++
        (resolveLaunch w.env w.fs).bun_path ++ "\n  Project dir: ")
      ((resolveLaunch w.env w.fs).project_dir)
      ("\n  Error: " ++ e)
    simpa [spawnPanicMsg, String.data_append, List.append_assoc] using h
  · refine List.IsSuffix.isInfix ⟨("Failed to start Bun server.\n  Bun path: " ++
      (resolveLaunch w.env w.fs).bun_path ++ "\n  Project dir: " ++
      (resolveLaunch w.env w.fs).project_dir ++ "\n  Error: ").data, ?_⟩
    simp [spawnPanicMsg, String.data_append, List.append_assoc]
  · simp [List.countP_append, resolveLaunch_setup_countP_spawn,
      Effect.isSpawnAttempt, Effect.isWarn]

def w6 : World :=
  World.mk (fun _ => none) (fun _ => false) false
    (some "No such file or directory") (fun _ => false)

theorem c6_spawn_failure_panics_witness :
    (run w6).2 =
      RunResult.panicked (spawnPanicMsg (resolveLaunch w6.env w6.fs).bun_path
        (resolveLaunch w6.env w6.fs).project_dir "No such file or directory") ∧
    ((run w6).1.countP Effect.isSpawnAttempt) = 1 :=
  ⟨(c6_spawn_failure_panics w6 "No such file or directory" rfl rfl).1,
   (c6_spawn_failure_panics w6 "No such file or directory" rfl rfl).2.2.2.2⟩

/-- C7: when the readiness probe never succeeds within the timeout,
`run` emits exactly one warning, does not abort, does not kill the child,
and startup proceeds with the spawned child owned. -/
theorem c7_timeout_warns_once_and_proceeds (w : World)
    (hport : w.port1420Open = false) (hspawn : w.spawnError = none)
    (hwait : wait_for_server w.connectOk 1420 15 = false) :
    ((run w).1.countP Effect.isWarn) = 1 ∧
    (run w).2 = RunResult.ok (some ()) ∧
    Effect.killChild ∉ (run w).1 := by
  rw [run_eq_of_spawn_ok w hport hspawn]
  refine ⟨?_, rfl, ?_⟩
  · simp [hwait, List.countP_append, resolveLaunch_setup_countP_warn, Effect.isWarn]
  · have hsk := resolveLaunch_setup_no_kill w.env w.fs
    simp [hwait, List.mem_append, hsk]

def w7 : World :=
  World.mk (fun _ => none) (fun _ => false) false none (fun _ => false)

theorem c7_timeout_warns_once_and_proceeds_witness :
    ((run w7).1.countP Effect.isWarn) = 1 ∧
    (run w7).2 = RunResult.ok (some ()) ∧
    Effect.killChild ∉ (run w7).1 :=
  c7_timeout_warns_once_and_proceeds w7 rfl rfl (wait_for_server_const_false 1420 15)

/-- C8: `wait_for_server` (modelled with a 200 ms step per failed attempt)
returns `true` exactly when some attempt inside the timeout window
succeeds, and `false` exactly when every attempt inside the window fails;
being a total function, it terminates on every input. -/
theorem c8_wait_for_server_characterization (c : Nat → Bool) (port t : Nat) :
    (wait_for_server c port t = true ↔ ∃ n, 200 * n < t * 1000 ∧ c n = true) ∧
    (wait_for_server c port t = false ↔ ∀ n, 200 * n < t * 1000 → c n = false) :=
  ⟨wait_for_server_true_iff c port t, wait_for_server_false_iff c port t⟩

def w9 : World :=
  World.mk (fun _ => none) (fun _ => false) false (some "boom") (fun _ => false)

/-- C9 counterexample: in a normal (non-sandboxed) launch — `FLATPAK_ID`
unset — the supervisor still sets `PORTFOLIO60_DATA_DIR` on the child and
still creates the per-user data directory, refuting "only when operating
in sandboxed mode". -/
theorem c9_counterexample_normal_mode_side_effects :
    w9.env "FLATPAK_ID" = none ∧
    Effect.setChildEnv "PORTFOLIO60_DATA_DIR" "/home/rcollins/.config/portfolio_60"
      ∈ (run w9).1 ∧
    Effect.createDirAll "/home/rcollins/.config/portfolio_60" ∈ (run w9).1 := by
  decide

/-- C9 amended: on every startup that reaches the launch branch — in
sandboxed and in normal mode alike — the supervisor sets
`PORTFOLIO60_DATA_DIR` to `$HOME/.config/portfolio_60` on the spawned
child and creates that writable per-user data directory. -/
theorem c9_amended_env_and_dir_in_both_modes (w : World)
    (hport : w.port1420Open = false) :
    Effect.setChildEnv "PORTFOLIO60_DATA_DIR"
        (((w.env "HOME").getD "/home/rcollins") ++ "/.config/portfolio_60")
      ∈ (run w).1 ∧
    Effect.createDirAll
        (((w.env "HOME").getD "/home/rcollins") ++ "/.config/portfolio_60")
      ∈ (run w).1 := by
  have hmem := resolveLaunch_setup_mem w.env w.fs
  cases hspawn : w.spawnError with
  | some e =>
    rw [run_eq_of_spawn_error w e hport hspawn]
    exact ⟨by simp, by simp [List.mem_append, hmem]⟩
  | none =>
    rw [run_eq_of_spawn_ok w hport hspawn]
    exact ⟨by simp, by simp [List.mem_append, hmem]⟩

theorem c9_amended_env_and_dir_in_both_modes_witness :
    Effect.setChildEnv "PORTFOLIO60_DATA_DIR"
        (((w9.env "HOME").getD "/home/rcollins") ++ "/.config/portfolio_60")
      ∈ (run w9).1 ∧
    Effect.createDirAll
        (((w9.env "HOME").getD "/home/rcollins") ++ "/.config/portfolio_60")
      ∈ (run w9).1 :=
  c9_amended_env_and_dir_in_both_modes w9 rfl

/-- C10: with `HOME` unset, every home-derived path is computed from the
fixed fallback `/home/rcollins`: the second `find_bun` candidate, the data
directory, and (with no override and no sandbox) the project directory. -/
theorem c10_home_fallback_rcollins (env : String → Option String) (fs : String → Bool)
    (hHome : env "HOME" = none) :
    (find_bun_candidates env)[1]? = some "/home/rcollins/.bun/bin/bun" ∧
    (resolveLaunch env fs).data_dir = some "/home/rcollins/.config/portfolio_60" ∧
    (env "FLATPAK_ID" = none → env "PORTFOLIO60_DIR" = none →
      (resolveLaunch env fs).project_dir = "/home/rcollins/code/portfolio_60") := by
  refine ⟨?_, ?_, ?_⟩
  · simp [find_bun_candidates, hHome]
  · rw [resolveLaunch_data_dir]
    simp [hHome]
  · intro hF hP
    simp [resolveLaunch, hF, hP, hHome]

theorem c10_home_fallback_rcollins_witness :
    (find_bun_candidates (fun _ => none))[1]? = some "/home/rcollins/.bun/bin/bun" ∧
    (resolveLaunch (fun _ => none) (fun _ => false)).data_dir =
      some "/home/rcollins/.config/portfolio_60" ∧
    (resolveLaunch (fun _ => none) (fun _ => false)).project_dir =
      "/home/rcollins/code/portfolio_60" :=
  ⟨(c10_home_fallback_rcollins (fun _ => none) (fun _ => false) rfl).1,
   (c10_home_fallback_rcollins (fun _ => none) (fun _ => false) rfl).2.1,
   (c10_home_fallback_rcollins (fun _ => none) (fun _ => false) rfl).2.2 rfl rfl⟩

end Portfolio60
